import Mathlib

/-!
Verification of the three-body physics kernel and its browser driver.

The repository ships the driver (`src/js/app.js`) together with design
documents; the physics kernel itself (`window.accelerations`,
`window.leapfrogStep`, `window.totalEnergy`, `window.InitialConfigurations`)
is referenced through `window.*` and is not among the shipped files, so the
kernel functions below are modelled from the specification, while the driver
functions (`initSimulation`, `updateEnergyUI`) are translated from
`src/js/app.js`.
-/

namespace ThreeBody

/-- A 3-component real vector, the kernel's `Vector3` value type. -/
@[ext]
structure Vec3 where
  x : ℝ
  y : ℝ
  z : ℝ

namespace Vec3

/-- Component-wise addition; allocates a fresh vector. -/
noncomputable def add (a b : Vec3) : Vec3 := ⟨a.x + b.x, a.y + b.y, a.z + b.z⟩

/-- Component-wise subtraction. -/
noncomputable def sub (a b : Vec3) : Vec3 := ⟨a.x - b.x, a.y - b.y, a.z - b.z⟩

/-- Scalar multiplication. -/
noncomputable def smul (s : ℝ) (v : Vec3) : Vec3 := ⟨s * v.x, s * v.y, s * v.z⟩

/-- Component-wise negation. -/
noncomputable def neg (v : Vec3) : Vec3 := ⟨-v.x, -v.y, -v.z⟩

/-- Dot product. -/
noncomputable def dot (a b : Vec3) : ℝ := a.x * b.x + a.y * b.y + a.z * b.z

/-- Euclidean norm, `sqrt (dot v v)`. -/
noncomputable def norm (v : Vec3) : ℝ := Real.sqrt (dot v v)

/-- The zero vector. -/
noncomputable def zero : Vec3 := ⟨0, 0, 0⟩

noncomputable instance : Add Vec3 := ⟨Vec3.add⟩

noncomputable instance : Zero Vec3 := ⟨Vec3.zero⟩

noncomputable instance : AddCommMonoid Vec3 where
  add_assoc := by
    intro a b c
    show Vec3.add (Vec3.add a b) c = Vec3.add a (Vec3.add b c)
    simp only [Vec3.add]
    ext <;> ring
  zero_add := by
    intro a
    show Vec3.add Vec3.zero a = a
    simp only [Vec3.add, Vec3.zero]
    ext <;> ring
  add_zero := by
    intro a
    show Vec3.add a Vec3.zero = a
    simp only [Vec3.add, Vec3.zero]
    ext <;> ring
  add_comm := by
    intro a b
    show Vec3.add a b = Vec3.add b a
    simp only [Vec3.add]
    ext <;> ring
  nsmul := nsmulRec
  nsmul_zero := fun _ => rfl
  nsmul_succ := fun _ _ => rfl

lemma add_def (a b : Vec3) : a + b = Vec3.add a b := rfl

lemma zero_def : (0 : Vec3) = Vec3.zero := rfl

end Vec3

/-- A body: mass, position, velocity. -/
@[ext]
structure Body where
  m : ℝ
  r : Vec3
  v : Vec3

/-- Placeholder body used only to give `List.getD` a default. -/
noncomputable def bodyDefault : Body := ⟨0, Vec3.zero, Vec3.zero⟩

/-- A state is an ordered, fixed-length sequence of bodies. -/
abbrev State := List Body

/-- Modelled from the spec: the per-pair contribution of body `bj` to the
acceleration of body `bi` in the missing kernel function `accelerations`
(spec section 4.2): displacement `d = position[j] - position[i]`, squared
distance `s = dot(d,d)`, regularized cube-distance `r3 = sqrt(s)*s + eps`,
contribution `G * mass[j] / r3 * d`. -/
noncomputable def contribution (G eps : ℝ) (bi bj : Body) : Vec3 :=
  let d := Vec3.sub bj.r bi.r
  let s := Vec3.dot d d
  let r3 := Real.sqrt s * s + eps
  Vec3.smul (G * bj.m / r3) d

/-- Modelled from the spec: the missing kernel function
`accelerations(state, G, eps)` (spec section 4.2) — for every body index `i`,
accumulate the contributions of all other bodies `j` into `acceleration[i]`,
returning one vector per body in input order. -/
noncomputable def accelerations (st : State) (G eps : ℝ) : List Vec3 :=
  (List.range st.length).map (fun i =>
    (List.range st.length).foldl
      (fun acc j =>
        if j = i then acc
        else Vec3.add acc (contribution G eps (st.getD i bodyDefault) (st.getD j bodyDefault)))
      Vec3.zero)

/-- The spec's closed-form description of the acceleration of body `i`:
the sum over all other bodies `j` of `G * mass[j] / r3 * d`, with
`d = position[j] - position[i]`, `s = dot(d,d)` and `r3 = sqrt(s)*s + eps`
(the softening added after cubing the distance). -/
noncomputable def accelFormula (st : State) (G eps : ℝ) (i : ℕ) : Vec3 :=
  ∑ j in (Finset.range st.length).erase i,
    Vec3.smul
      (G * (st.getD j bodyDefault).m /
        (Real.sqrt
            (Vec3.dot (Vec3.sub (st.getD j bodyDefault).r (st.getD i bodyDefault).r)
              (Vec3.sub (st.getD j bodyDefault).r (st.getD i bodyDefault).r)) *
          Vec3.dot (Vec3.sub (st.getD j bodyDefault).r (st.getD i bodyDefault).r)
            (Vec3.sub (st.getD j bodyDefault).r (st.getD i bodyDefault).r) + eps))
      (Vec3.sub (st.getD j bodyDefault).r (st.getD i bodyDefault).r)

/-- Modelled from the spec: the kernel's recognized default gravitational
constant `G = 1.0` (spec section 4.2). -/
noncomputable def G0 : ℝ := 1

/-- Modelled from the spec: the kernel's recognized default softening for the
force-for-integration path, `eps = 1e-12` (spec section 4.2). -/
noncomputable def eps0 : ℝ := 1e-12

/-- An elementary relation: a pure state transformation `State × Δt → State`. -/
abbrev Relation := State → ℝ → State

/-- Modelled from the spec: `halfStepVelocityRelation(state, dt)` (spec
section 4.4) — compute `a = accelerations(state)` and replace every body's
velocity with `velocity + a*(dt/2)`; positions and masses unchanged. -/
noncomputable def halfStepVelocityRelation : Relation := fun st dt =>
  List.zipWith (fun b a => Body.mk b.m b.r (Vec3.add b.v (Vec3.smul (dt / 2) a)))
    st (accelerations st G0 eps0)

/-- Modelled from the spec: `fullStepPositionRelation(state, dt)` (spec
section 4.4) — replace every body's position with `position + velocity*dt`;
velocities and masses unchanged. -/
noncomputable def fullStepPositionRelation : Relation := fun st dt =>
  st.map (fun b => Body.mk b.m (Vec3.add b.r (Vec3.smul dt b.v)) b.v)

/-- Modelled from the spec: the generic `compose` combinator (spec
section 4.5) — thread the state through the given relations in order,
passing the same dt to each; purely structural. -/
def compose (rels : List Relation) : Relation := fun st dt =>
  rels.foldl (fun s rel => rel s dt) st

/-- Modelled from the spec: `leapfrogStep = compose(halfStepVelocityRelation,
fullStepPositionRelation, halfStepVelocityRelation)` (spec section 4.5). -/
noncomputable def leapfrogStep : Relation :=
  compose [halfStepVelocityRelation, fullStepPositionRelation, halfStepVelocityRelation]

/-- Modelled from the spec: `iterate(stepFn, initialState, steps)` (spec
section 4.5) — apply `stepFn` exactly `steps` times, threading the state. -/
noncomputable def iterate (stepFn : Relation) (dt : ℝ) : State → ℕ → State
  | st, 0 => st
  | st, n + 1 => iterate stepFn dt (stepFn st dt) n

/-- Modelled from the spec: `kineticEnergy(state) = 0.5 * Σ mass_i *
dot(velocity_i, velocity_i)` (spec section 4.3). -/
noncomputable def kineticEnergy (st : State) : ℝ :=
  0.5 * (st.map (fun b => b.m * Vec3.dot b.v b.v)).sum

/-- Modelled from the spec: `potentialEnergy(state, G, eps) =
-Σ over pairs i < j of G * mass_i * mass_j /
(norm(position_j - position_i) + eps)`, each unordered pair counted once
(spec section 4.3). -/
noncomputable def potentialEnergy (st : State) (G eps : ℝ) : ℝ :=
  -(∑ i in Finset.range st.length, ∑ j in Finset.range st.length,
      if i < j then
        G * (st.getD i bodyDefault).m * (st.getD j bodyDefault).m /
          (Vec3.norm (Vec3.sub (st.getD j bodyDefault).r (st.getD i bodyDefault).r) + eps)
      else 0)

/-- Modelled from the spec: `totalEnergy = kineticEnergy + potentialEnergy`
(spec section 4.3), with `G` and `eps` exposed as explicit parameters as the
spec directs (section 9). -/
noncomputable def totalEnergy (st : State) (G eps : ℝ) : ℝ :=
  kineticEnergy st + potentialEnergy st G eps

/-- Modelled from the spec: first body of the equilateral Lagrangian
configuration (spec section 4.6) — unit mass, triangle side 1 (hence
circumradius `sqrt 3 / 3`; the spec's simultaneous `unit-circumradius` and
`side = 1` conflict, and side 1 is what the spec's own golden-fixture
properties in section 8 — pairwise distances 1, total energy -1.5, tangential
speed 1 with angular velocity `sqrt 3` — all require), tangential unit
velocity perpendicular to the radius from the centroid. -/
noncomputable def lagrangeBody0 : Body :=
  ⟨1, ⟨Real.sqrt 3 / 3, 0, 0⟩, ⟨0, 1, 0⟩⟩

/-- Modelled from the spec: second body of the Lagrangian configuration,
at angle 120 degrees on the same circle, unit tangential velocity. -/
noncomputable def lagrangeBody1 : Body :=
  ⟨1, ⟨-(Real.sqrt 3) / 6, 1 / 2, 0⟩, ⟨-(Real.sqrt 3) / 2, -(1 / 2), 0⟩⟩

/-- Modelled from the spec: third body of the Lagrangian configuration,
at angle 240 degrees on the same circle, unit tangential velocity. -/
noncomputable def lagrangeBody2 : Body :=
  ⟨1, ⟨-(Real.sqrt 3) / 6, -(1 / 2), 0⟩, ⟨Real.sqrt 3 / 2, -(1 / 2), 0⟩⟩

/-- Modelled from the spec: `createLagrangianState()` (spec sections 4.6
and 8), the three-body equilateral Lagrangian initial condition. -/
noncomputable def createLagrangianState : State :=
  [lagrangeBody0, lagrangeBody1, lagrangeBody2]

/-- The driver's mutable simulation variables, from `src/js/app.js`:
`state`, `E0`, `simulatedTime`, `trajectories`, `currentConfig`. -/
structure DriverState where
  state : State
  E0 : ℝ
  simulatedTime : ℝ
  trajectories : List (List Vec3)
  currentConfig : String

/-- Translated from `src/js/app.js` (`initSimulation`, lines 152-165):
record the requested configuration key, look it up in the configuration
table (`window.InitialConfigurations`, passed here as `table`); on a miss,
log and return; on a hit, build the fresh state, store its total energy as
`E0`, reset the simulated time and clear every trajectory buffer. -/
noncomputable def initSimulation (table : String → Option (Unit → State))
    (ds : DriverState) (configKey : String) : DriverState :=
  let ds1 := { ds with currentConfig := configKey }
  match table configKey with
  | none => ds1
  | some config =>
      let st := config ()
      { ds1 with
          state := st
          E0 := totalEnergy st G0 eps0
          simulatedTime := 0
          trajectories := ds1.trajectories.map (fun _ => ([] : List Vec3)) }

/-- Translated from `src/js/app.js` (`updateEnergyUI`, line 206): the
displayed relative energy error `|E1 - E0| / (|E0| + 1e-15)`. -/
noncomputable def relError (E1 E0 : ℝ) : ℝ := |E1 - E0| / (|E0| + 1e-15)

/-- Concrete fixture body used to instantiate universally quantified
theorems. -/
noncomputable def wBodyA : Body := ⟨1, ⟨0, 0, 0⟩, ⟨0, 1, 0⟩⟩

/-- Second concrete fixture body. -/
noncomputable def wBodyB : Body := ⟨1, ⟨1, 0, 0⟩, ⟨0, 0, 0⟩⟩

/-- Concrete two-body fixture state. -/
noncomputable def wState : State := [wBodyA, wBodyB]

/-- Concrete configuration table fixture: only the key used by the shipped
driver, `"lagrange"`, is present. -/
noncomputable def wConfigTable : String → Option (Unit → State) :=
  fun key => if key = "lagrange" then some (fun _ => createLagrangianState) else none

/-- Concrete driver-state fixture. -/
noncomputable def wDriverState : DriverState :=
  ⟨wState, -(3 / 2), 7, [[Vec3.zero], [], []], "lagrange"⟩

lemma vec3_add_zero (a : Vec3) : Vec3.add a Vec3.zero = a := by
  simp only [Vec3.add, Vec3.zero]
  ext <;> simp

lemma foldl_range_add (h : ℕ → Vec3) :
    ∀ (n : ℕ) (v : Vec3),
      (List.range n).foldl (fun acc j => Vec3.add acc (h j)) v =
        v + ∑ j in Finset.range n, h j := by
  intro n
  induction n with
  | zero => intro v; simp
  | succ n ih =>
      intro v
      rw [List.range_succ, List.foldl_append]
      simp only [List.foldl_cons, List.foldl_nil]
      rw [ih, ← Vec3.add_def, Finset.sum_range_succ, add_assoc]

lemma accelerations_length (st : State) (G eps : ℝ) :
    (accelerations st G eps).length = st.length := by
  simp [accelerations]

lemma accelerations_getD (st : State) (G eps : ℝ) (i : ℕ) (hi : i < st.length) :
    (accelerations st G eps).getD i Vec3.zero = accelFormula st G eps i := by
  have hlen : i < ((List.range st.length).map (fun i =>
      (List.range st.length).foldl
        (fun acc j =>
          if j = i then acc
          else Vec3.add acc (contribution G eps (st.getD i bodyDefault) (st.getD j bodyDefault)))
        Vec3.zero)).length := by
    simpa using hi
  rw [accelerations, List.getD_eq_getElem _ _ hlen, List.getElem_map, List.getElem_range]
  have hfun :
      (fun acc j =>
          if j = i then acc
          else Vec3.add acc (contribution G eps (st.getD i bodyDefault) (st.getD j bodyDefault))) =
        (fun acc j =>
          Vec3.add acc
            (if j = i then (0 : Vec3)
             else contribution G eps (st.getD i bodyDefault) (st.getD j bodyDefault))) := by
    funext acc j
    by_cases hj : j = i
    · simp only [hj, if_pos]
      exact (by simpa [Vec3.zero_def] using (vec3_add_zero acc).symm)
    · simp [hj]
  rw [hfun, foldl_range_add, ← Vec3.zero_def, zero_add]
  have herase :
      ∑ j in Finset.range st.length,
          (if j = i then (0 : Vec3)
           else contribution G eps (st.getD i bodyDefault) (st.getD j bodyDefault)) =
        ∑ j in (Finset.range st.length).erase i,
          (if j = i then (0 : Vec3)
           else contribution G eps (st.getD i bodyDefault) (st.getD j bodyDefault)) := by
    refine (Finset.sum_erase _ ?_).symm
    simp
  rw [herase, accelFormula]
  refine Finset.sum_congr rfl (fun j hj => ?_)
  rw [if_neg (Finset.ne_of_mem_erase hj)]
  simp only [contribution]

/-- C1: for every state, `G` and `eps`, the kernel's `accelerations` returns
one vector per body in input order, and the `i`-th entry is the sum over all
other bodies `j` of `G * mass[j] / r3 * d` with `d = position[j] -
position[i]`, `s = dot(d,d)`, `r3 = sqrt(s)*s + eps`. -/
theorem accelerations_spec (st : State) (G eps : ℝ) :
    (accelerations st G eps).length = st.length ∧
    ∀ i, i < st.length →
      (accelerations st G eps).getD i Vec3.zero = accelFormula st G eps i :=
  ⟨accelerations_length st G eps, fun i hi => accelerations_getD st G eps i hi⟩

/-- Witness for C1: the theorem applied to a concrete two-body state at
index 0. -/
theorem accelerations_spec_witness :
    (accelerations wState 1 0).getD 0 Vec3.zero = accelFormula wState 1 0 0 :=
  (accelerations_spec wState 1 0).2 0 (by simp [wState])

/-- C3: a leapfrog step is exactly the sequential composition of the
half-step velocity relation, the full-step position relation and the
half-step velocity relation, all with the same dt. -/
theorem leapfrogStep_is_composition (st : State) (dt : ℝ) :
    leapfrogStep st dt =
      halfStepVelocityRelation
        (fullStepPositionRelation (halfStepVelocityRelation st dt) dt) dt := rfl

lemma zipWith_eq_left {α : Type} (f : Body → α → Body) (hf : ∀ b a, f b a = b) :
    ∀ (s : List Body) (l : List α), s.length ≤ l.length → List.zipWith f s l = s := by
  intro s
  induction s with
  | nil => intro l _; simp
  | cons b tl ih =>
      intro l hl
      cases l with
      | nil => simp at hl
      | cons a tla =>
          simp only [List.length_cons] at hl
          rw [List.zipWith_cons_cons, hf]
          exact congrArg (List.cons b) (ih tla (Nat.succ_le_succ_iff.mp hl))

/-- C4: with `dt = 0` both elementary relations are the identity,
component-wise. -/
theorem relations_identity_at_zero (st : State) :
    halfStepVelocityRelation st 0 = st ∧ fullStepPositionRelation st 0 = st := by
  constructor
  · rw [halfStepVelocityRelation]
    refine zipWith_eq_left _ ?_ st _ (le_of_eq (accelerations_length st G0 eps0).symm)
    intro b a
    ext <;> simp [Vec3.add, Vec3.smul]
  · rw [fullStepPositionRelation]
    have hid : (fun b => Body.mk b.m (Vec3.add b.r (Vec3.smul 0 b.v)) b.v) = id := by
      funext b
      ext <;> simp [Vec3.add, Vec3.smul]
    rw [hid, List.map_id]

lemma map_m_zipWith {α : Type} (f : Body → α → Body) (hf : ∀ b a, (f b a).m = b.m) :
    ∀ (s : List Body) (l : List α), s.length ≤ l.length →
      (List.zipWith f s l).map Body.m = s.map Body.m := by
  intro s
  induction s with
  | nil => intro l _; simp
  | cons b tl ih =>
      intro l hl
      cases l with
      | nil => simp at hl
      | cons a tla =>
          simp only [List.length_cons] at hl
          rw [List.zipWith_cons_cons, List.map_cons, List.map_cons, hf]
          exact congrArg (List.cons b.m) (ih tla (Nat.succ_le_succ_iff.mp hl))

lemma masses_halfStep (st : State) (dt : ℝ) :
    (halfStepVelocityRelation st dt).map Body.m = st.map Body.m := by
  rw [halfStepVelocityRelation]
  exact map_m_zipWith
    (fun b a => Body.mk b.m b.r (Vec3.add b.v (Vec3.smul (dt / 2) a)))
    (fun b a => rfl) st _
    (le_of_eq (accelerations_length st G0 eps0).symm)

lemma masses_fullStep (st : State) (dt : ℝ) :
    (fullStepPositionRelation st dt).map Body.m = st.map Body.m := by
  rw [fullStepPositionRelation, List.map_map]
  rfl

/-- C5: a leapfrog step preserves the number of bodies, their order and
every mass, element-wise. -/
theorem leapfrogStep_preserves_masses (st : State) (dt : ℝ) :
    (leapfrogStep st dt).length = st.length ∧
    (leapfrogStep st dt).map Body.m = st.map Body.m := by
  have hmap : (leapfrogStep st dt).map Body.m = st.map Body.m := by
    show (halfStepVelocityRelation
        (fullStepPositionRelation (halfStepVelocityRelation st dt) dt) dt).map Body.m =
      st.map Body.m
    rw [masses_halfStep, masses_fullStep, masses_halfStep]
  refine ⟨?_, hmap⟩
  have hlen := congrArg List.length hmap
  simpa using hlen

lemma sqrt3_mul_self : Real.sqrt 3 * Real.sqrt 3 = 3 :=
  Real.mul_self_sqrt (by norm_num)

lemma dist01 : Vec3.norm (Vec3.sub lagrangeBody1.r lagrangeBody0.r) = 1 := by
  have hd : Vec3.dot (Vec3.sub lagrangeBody1.r lagrangeBody0.r)
      (Vec3.sub lagrangeBody1.r lagrangeBody0.r) = 1 := by
    simp only [Vec3.dot, Vec3.sub, lagrangeBody0, lagrangeBody1]
    linear_combination (1 / 4) * sqrt3_mul_self
  rw [Vec3.norm, hd]
  exact Real.sqrt_one

lemma dist02 : Vec3.norm (Vec3.sub lagrangeBody2.r lagrangeBody0.r) = 1 := by
  have hd : Vec3.dot (Vec3.sub lagrangeBody2.r lagrangeBody0.r)
      (Vec3.sub lagrangeBody2.r lagrangeBody0.r) = 1 := by
    simp only [Vec3.dot, Vec3.sub, lagrangeBody0, lagrangeBody2]
    linear_combination (1 / 4) * sqrt3_mul_self
  rw [Vec3.norm, hd]
  exact Real.sqrt_one

lemma dist12 : Vec3.norm (Vec3.sub lagrangeBody2.r lagrangeBody1.r) = 1 := by
  have hd : Vec3.dot (Vec3.sub lagrangeBody2.r lagrangeBody1.r)
      (Vec3.sub lagrangeBody2.r lagrangeBody1.r) = 1 := by
    simp only [Vec3.dot, Vec3.sub, lagrangeBody1, lagrangeBody2]
    linear_combination
  rw [Vec3.norm, hd]
  exact Real.sqrt_one

lemma velsq0 : Vec3.dot lagrangeBody0.v lagrangeBody0.v = 1 := by
  simp only [Vec3.dot, lagrangeBody0]
  norm_num

lemma velsq1 : Vec3.dot lagrangeBody1.v lagrangeBody1.v = 1 := by
  simp only [Vec3.dot, lagrangeBody1]
  linear_combination (1 / 4) * sqrt3_mul_self

lemma velsq2 : Vec3.dot lagrangeBody2.v lagrangeBody2.v = 1 := by
  simp only [Vec3.dot, lagrangeBody2]
  linear_combination (1 / 4) * sqrt3_mul_self

lemma lagrangeMass0 : lagrangeBody0.m = 1 := rfl

lemma lagrangeMass1 : lagrangeBody1.m = 1 := rfl

lemma lagrangeMass2 : lagrangeBody2.m = 1 := rfl

lemma lagrangeGetD0 : createLagrangianState.getD 0 bodyDefault = lagrangeBody0 := rfl

lemma lagrangeGetD1 : createLagrangianState.getD 1 bodyDefault = lagrangeBody1 := rfl

lemma lagrangeGetD2 : createLagrangianState.getD 2 bodyDefault = lagrangeBody2 := rfl

lemma lagrange_kinetic : kineticEnergy createLagrangianState = 3 / 2 := by
  rw [kineticEnergy, createLagrangianState]
  simp only [List.map_cons, List.map_nil, List.sum_cons, List.sum_nil]
  rw [velsq0, velsq1, velsq2, lagrangeMass0, lagrangeMass1, lagrangeMass2]
  norm_num

lemma lagrange_potential : potentialEnergy createLagrangianState 1 0 = -3 := by
  rw [potentialEnergy]
  rw [show createLagrangianState.length = 3 from rfl]
  simp only [Finset.sum_range_succ, Finset.sum_range_zero,
    lagrangeGetD0, lagrangeGetD1, lagrangeGetD2]
  norm_num [dist01, dist02, dist12, lagrangeMass0, lagrangeMass1, lagrangeMass2]

/-- C2: on the Lagrangian initial state with G = 1, unit masses and unit
side, the total energy (kinetic plus pair-potential) is exactly -1.5 before
any integration step. -/
theorem lagrange_total_energy : totalEnergy createLagrangianState 1 0 = -(3 / 2) := by
  rw [totalEnergy, lagrange_kinetic, lagrange_potential]
  norm_num

/-- C6: in the Lagrangian initial state the three pairwise distances are all
equal to each other and all equal to the configured side length 1. -/
theorem lagrange_pairwise_distances :
    Vec3.norm (Vec3.sub (createLagrangianState.getD 1 bodyDefault).r
        (createLagrangianState.getD 0 bodyDefault).r) = 1 ∧
    Vec3.norm (Vec3.sub (createLagrangianState.getD 2 bodyDefault).r
        (createLagrangianState.getD 0 bodyDefault).r) = 1 ∧
    Vec3.norm (Vec3.sub (createLagrangianState.getD 2 bodyDefault).r
        (createLagrangianState.getD 1 bodyDefault).r) = 1 :=
  ⟨dist01, dist02, dist12⟩

/-- C8: for a two-body state with equal masses and a common softening eps,
the first acceleration is exactly the negation of the second (Newton's
third law), since eps enters symmetrically. -/
theorem twoBody_acceleration_antisymm (b0 b1 : Body) (G eps : ℝ) (hm : b0.m = b1.m) :
    (accelerations [b0, b1] G eps).getD 0 Vec3.zero =
      Vec3.neg ((accelerations [b0, b1] G eps).getD 1 Vec3.zero) := by
  have e0 : (accelerations [b0, b1] G eps).getD 0 Vec3.zero =
      Vec3.add Vec3.zero (contribution G eps b0 b1) := rfl
  have e1 : (accelerations [b0, b1] G eps).getD 1 Vec3.zero =
      Vec3.add Vec3.zero (contribution G eps b1 b0) := rfl
  have hdot : Vec3.dot (Vec3.sub b0.r b1.r) (Vec3.sub b0.r b1.r) =
      Vec3.dot (Vec3.sub b1.r b0.r) (Vec3.sub b1.r b0.r) := by
    simp only [Vec3.dot, Vec3.sub]
    ring
  rw [e0, e1]
  simp only [contribution]
  rw [hdot, hm]
  ext <;> simp [Vec3.add, Vec3.zero, Vec3.neg, Vec3.smul, Vec3.sub] <;> ring

/-- Witness for C8: the theorem applied to a concrete equal-mass two-body
state with the kernel's default softening. -/
theorem twoBody_acceleration_antisymm_witness :
    (accelerations [wBodyA, wBodyB] 1 eps0).getD 0 Vec3.zero =
      Vec3.neg ((accelerations [wBodyA, wBodyB] 1 eps0).getD 1 Vec3.zero) :=
  twoBody_acceleration_antisymm wBodyA wBodyB 1 eps0 rfl

/-- C9: when the requested configuration key is absent from the table,
`initSimulation` leaves the current state, the stored initial energy, the
simulated time and the trajectory buffers exactly as they were. -/
theorem initSimulation_unknown_key (table : String → Option (Unit → State))
    (ds : DriverState) (key : String) (h : table key = none) :
    (initSimulation table ds key).state = ds.state ∧
    (initSimulation table ds key).E0 = ds.E0 ∧
    (initSimulation table ds key).simulatedTime = ds.simulatedTime ∧
    (initSimulation table ds key).trajectories = ds.trajectories := by
  refine ⟨?_, ?_, ?_, ?_⟩ <;> simp [initSimulation, h]

/-- Witness for C9: a concrete table holding only the `"lagrange"` key,
queried with an unknown key. -/
theorem initSimulation_unknown_key_witness :
    (initSimulation wConfigTable wDriverState "figure8").state = wDriverState.state ∧
    (initSimulation wConfigTable wDriverState "figure8").E0 = wDriverState.E0 ∧
    (initSimulation wConfigTable wDriverState "figure8").simulatedTime =
      wDriverState.simulatedTime ∧
    (initSimulation wConfigTable wDriverState "figure8").trajectories =
      wDriverState.trajectories :=
  initSimulation_unknown_key wConfigTable wDriverState "figure8" (by rfl)

/-- C10: the displayed relative energy error is `|E1 - E0| / (|E0| + 1e-15)`;
the denominator is strictly positive even when `E0 = 0`, and the computed
value is a non-negative real for all inputs. -/
theorem relError_guarded_nonneg (E1 E0 : ℝ) :
    relError E1 E0 = |E1 - E0| / (|E0| + 1e-15) ∧
    0 < |E0| + (1e-15 : ℝ) ∧
    0 ≤ relError E1 E0 := by
  refine ⟨rfl, ?_, ?_⟩
  · positivity
  · rw [relError]
    positivity

end ThreeBody
